import Mathlib

/-
Verification development for the `brewson` repository (`process.ipynb`).

The notebook is a single linear dataflow over 4-D atmospheric fields
(time × level × latitude × longitude).  We embed it shallowly:

* fields become functions on `Fin`-indexed axes (axes are nonempty, sizes
  written `n + 1`, matching the real dataset where every axis is nonempty);
* `xarray.DataArray.differentiate` (numpy `gradient` with `edge_order=1`)
  becomes the explicit stencil `npGradient`, written generically in the
  scalar type so it can be instantiated both at `ℝ` (idealized exact
  arithmetic, used for the formula/algebraic claims) and at the IEEE-style
  extended value type `V` below (used for the NaN/±∞ propagation claims);
* `mean('longitude')` becomes `zonalMean`;
* the file-enumeration loop of the input cell becomes the `Except`-valued
  `ds_fnames` (a Python `IndexError` on `[...][0]` with an empty match list
  is modelled as `Except.error`);
* xarray's automatic coordinate alignment for binary arithmetic
  (`arithmetic_join='inner'`) is modelled by `XField`/`xmul`.
-/

namespace Brewson

/--
`xarray.DataArray.differentiate(coord)`, i.e. `np.gradient(f, x)` with the
default `edge_order=1`, along one axis with coordinate values `x`:
first-order one-sided differences at the two boundary indices and numpy's
second-order weighted central difference (coefficients
`a = -hd/(hs*(hs+hd))`, `b = (hd-hs)/(hs*hd)`, `c = hs/(hd*(hs+hd))` with
`hs = x[i]-x[i-1]`, `hd = x[i+1]-x[i]`) at interior indices.  Generic in
the scalar type so it can be read both over `ℝ` and over `V`.
-/
def npGradient {α : Type} [Add α] [Sub α] [Mul α] [Div α] [Neg α] {n : ℕ}
    (x f : Fin (n + 1) → α) (i : Fin (n + 1)) : α :=
  let ip : Fin (n + 1) := ⟨min (i.val + 1) n, by omega⟩
  let im : Fin (n + 1) := ⟨i.val - 1, by omega⟩
  if i.val = 0 then (f ip - f i) / (x ip - x i)
  else if i.val = n then (f i - f im) / (x i - x im)
  else
    let hs := x i - x im
    let hd := x ip - x i
    (-hd / (hs * (hs + hd))) * f im + ((hd - hs) / (hs * hd)) * f i
      + (hs / (hd * (hs + hd))) * f ip

/--
IEEE-754-style extended values over exact rationals: finite values, the two
infinities, and NaN.  The notebook's arithmetic is numpy floating point;
this type captures exactly the NaN/±∞ behaviour of the float operations
(without rounding), which is what the numerical-degeneracy claims are
about.  Zero is unsigned and treated as `+0`.
-/
inductive V : Type where
  | fin : ℚ → V
  | pinf : V
  | ninf : V
  | nan : V
deriving DecidableEq

/-- A value is finite when it is `fin q` for some rational `q`. -/
def V.isFinite : V → Bool
  | .fin _ => true
  | _ => false

/-- IEEE negation. -/
def V.neg : V → V
  | .fin a => .fin (-a)
  | .pinf => .ninf
  | .ninf => .pinf
  | .nan => .nan

/-- IEEE addition (NaN absorbs; `+∞ + -∞ = NaN`). -/
def V.add : V → V → V
  | .nan, _ => .nan
  | _, .nan => .nan
  | .fin a, .fin b => .fin (a + b)
  | .fin _, .pinf => .pinf
  | .pinf, .fin _ => .pinf
  | .fin _, .ninf => .ninf
  | .ninf, .fin _ => .ninf
  | .pinf, .pinf => .pinf
  | .ninf, .ninf => .ninf
  | .pinf, .ninf => .nan
  | .ninf, .pinf => .nan

/-- IEEE subtraction: `x - y = x + (-y)`. -/
def V.sub (x y : V) : V := x.add y.neg

/-- IEEE multiplication (`0 * ±∞ = NaN`). -/
def V.mul : V → V → V
  | .nan, _ => .nan
  | _, .nan => .nan
  | .fin a, .fin b => .fin (a * b)
  | .fin a, .pinf => if 0 < a then .pinf else if a < 0 then .ninf else .nan
  | .fin a, .ninf => if 0 < a then .ninf else if a < 0 then .pinf else .nan
  | .pinf, .fin b => if 0 < b then .pinf else if b < 0 then .ninf else .nan
  | .ninf, .fin b => if 0 < b then .ninf else if b < 0 then .pinf else .nan
  | .pinf, .pinf => .pinf
  | .ninf, .ninf => .pinf
  | .pinf, .ninf => .ninf
  | .ninf, .pinf => .ninf

/--
IEEE division: `x / 0` is `±∞` for nonzero finite `x` (unsigned zero read
as `+0`), `0 / 0 = NaN`, `±∞ / ±∞ = NaN`, finite `/ ±∞ = 0`.
-/
def V.div : V → V → V
  | .nan, _ => .nan
  | _, .nan => .nan
  | .fin a, .fin b =>
      if b = 0 then (if 0 < a then .pinf else if a < 0 then .ninf else .nan)
      else .fin (a / b)
  | .fin _, .pinf => .fin 0
  | .fin _, .ninf => .fin 0
  | .pinf, .fin b => if 0 ≤ b then .pinf else .ninf
  | .ninf, .fin b => if 0 ≤ b then .ninf else .pinf
  | .pinf, .pinf => .nan
  | .pinf, .ninf => .nan
  | .ninf, .pinf => .nan
  | .ninf, .ninf => .nan

instance : Neg V := ⟨V.neg⟩
instance : Add V := ⟨V.add⟩
instance : Sub V := ⟨V.sub⟩
instance : Mul V := ⟨V.mul⟩
instance : Div V := ⟨V.div⟩

/--
The raw data opened by `xr.open_mfdataset` after the `rename` call: the raw
vertical coordinate `level` (hPa values, one per level), the raw latitude
coordinate in degrees, and the five 4-D variables `u`, `v`, `w`
(renamed from `U`, `V`, `W`; `w` is the native pressure/Cartesian-vertical
velocity, kept here under the notebook's name `w_cartesian`), `T`, and
`Phi` (renamed from `Z`, the geopotential).  Axis sizes are written `n + 1`
because every axis of the dataset is nonempty.
-/
structure Grid (nT nZ nLat nLon : ℕ) : Type where
  level : Fin (nZ + 1) → ℝ
  latitude_deg : Fin (nLat + 1) → ℝ
  u : Fin (nT + 1) → Fin (nZ + 1) → Fin (nLat + 1) → Fin (nLon + 1) → ℝ
  v : Fin (nT + 1) → Fin (nZ + 1) → Fin (nLat + 1) → Fin (nLon + 1) → ℝ
  w_cartesian : Fin (nT + 1) → Fin (nZ + 1) → Fin (nLat + 1) → Fin (nLon + 1) → ℝ
  T : Fin (nT + 1) → Fin (nZ + 1) → Fin (nLat + 1) → Fin (nLon + 1) → ℝ
  Phi : Fin (nT + 1) → Fin (nZ + 1) → Fin (nLat + 1) → Fin (nLon + 1) → ℝ

/-- `.mean('longitude')`: the arithmetic mean along the longitude axis. -/
noncomputable def zonalMean {n : ℕ} (F : Fin (n + 1) → ℝ) : ℝ :=
  (∑ l, F l) / (n + 1)

noncomputable section

variable {nT nZ nLat nLon : ℕ}

/-- `p = 100 * ds['z']` (hPa to Pa). -/
def p (g : Grid nT nZ nLat nLon) (j : Fin (nZ + 1)) : ℝ := 100 * g.level j

/-- `lat = np.pi * ds['latitude'] / 180` (degrees to radians). -/
def lat (g : Grid nT nZ nLat nLon) (φ : Fin (nLat + 1)) : ℝ :=
  Real.pi * g.latitude_deg φ / 180

/-- The scale height `H = 6800` m. -/
def Hscale : ℝ := 6800

/-- `p_surf = p[-1]`: the pressure at the LAST array position. -/
def p_surf (g : Grid nT nZ nLat nLon) : ℝ := p g (Fin.last nZ)

/-- `z = -H * np.log(p / p_surf)`: the log-pressure height coordinate. -/
def z (g : Grid nT nZ nLat nLon) (j : Fin (nZ + 1)) : ℝ :=
  -Hscale * Real.log (p g j / p_surf g)

/-- `rho = np.exp(-z / H)`: the reference density profile. -/
def rho (g : Grid nT nZ nLat nLon) (j : Fin (nZ + 1)) : ℝ :=
  Real.exp (-z g j / Hscale)

/-- `h = ds['Phi'] / 9.8`: geopotential height. -/
def h (g : Grid nT nZ nLat nLon) (t : Fin (nT + 1)) (j : Fin (nZ + 1))
    (φ : Fin (nLat + 1)) (l : Fin (nLon + 1)) : ℝ :=
  g.Phi t j φ l / 9.8

/-- `dzdh = 1 / h.differentiate('z')`. -/
def dzdh (g : Grid nT nZ nLat nLon) (t : Fin (nT + 1)) (j : Fin (nZ + 1))
    (φ : Fin (nLat + 1)) (l : Fin (nLon + 1)) : ℝ :=
  1 / npGradient (z g) (fun k => h g t k φ l) j

/-- `w = dzdh * w_cartesian`: the log-pressure vertical velocity. -/
def w (g : Grid nT nZ nLat nLon) (t : Fin (nT + 1)) (j : Fin (nZ + 1))
    (φ : Fin (nLat + 1)) (l : Fin (nLon + 1)) : ℝ :=
  dzdh g t j φ l * g.w_cartesian t j φ l

/-- `theta = T * ((p_surf / p) ** 0.286)`: potential temperature. -/
def theta (g : Grid nT nZ nLat nLon) (t : Fin (nT + 1)) (j : Fin (nZ + 1))
    (φ : Fin (nLat + 1)) (l : Fin (nLon + 1)) : ℝ :=
  g.T t j φ l * ((p_surf g / p g j) ^ (0.286 : ℝ))

/-- `theta_bar = theta.mean('longitude')`. -/
def theta_bar (g : Grid nT nZ nLat nLon) (t : Fin (nT + 1)) (j : Fin (nZ + 1))
    (φ : Fin (nLat + 1)) : ℝ :=
  zonalMean (theta g t j φ)

/-- `N2 = theta_bar.differentiate('z')`: the buoyancy frequency squared. -/
def N2 (g : Grid nT nZ nLat nLon) (t : Fin (nT + 1)) (j : Fin (nZ + 1))
    (φ : Fin (nLat + 1)) : ℝ :=
  npGradient (z g) (fun k => theta_bar g t k φ) j

/-- `u_bar = u.mean('longitude')`. -/
def u_bar (g : Grid nT nZ nLat nLon) (t : Fin (nT + 1)) (j : Fin (nZ + 1))
    (φ : Fin (nLat + 1)) : ℝ :=
  zonalMean (g.u t j φ)

/-- `v_bar = v.mean('longitude')`. -/
def v_bar (g : Grid nT nZ nLat nLon) (t : Fin (nT + 1)) (j : Fin (nZ + 1))
    (φ : Fin (nLat + 1)) : ℝ :=
  zonalMean (g.v t j φ)

/--
`w_bar = w.mean('longitude')`.  The `w` in scope at this cell is the
converted (log-pressure) vertical velocity; it is taken here as the
explicit parameter `wf`, instantiated with `Brewson.w g` in `outputDataset`
below so that the dependence of the downstream fields on the converted
velocity is expressible (claim C10).
-/
def w_bar (_g : Grid nT nZ nLat nLon)
    (wf : Fin (nT + 1) → Fin (nZ + 1) → Fin (nLat + 1) → Fin (nLon + 1) → ℝ)
    (t : Fin (nT + 1)) (j : Fin (nZ + 1)) (φ : Fin (nLat + 1)) : ℝ :=
  zonalMean (wf t j φ)

/-- `u_prime = u - u_bar`. -/
def u_prime (g : Grid nT nZ nLat nLon) (t : Fin (nT + 1)) (j : Fin (nZ + 1))
    (φ : Fin (nLat + 1)) (l : Fin (nLon + 1)) : ℝ :=
  g.u t j φ l - u_bar g t j φ

/-- `v_prime = v - v_bar`. -/
def v_prime (g : Grid nT nZ nLat nLon) (t : Fin (nT + 1)) (j : Fin (nZ + 1))
    (φ : Fin (nLat + 1)) (l : Fin (nLon + 1)) : ℝ :=
  g.v t j φ l - v_bar g t j φ

/-- `w_prime = w - w_bar` (with the converted velocity as parameter `wf`). -/
def w_prime (g : Grid nT nZ nLat nLon)
    (wf : Fin (nT + 1) → Fin (nZ + 1) → Fin (nLat + 1) → Fin (nLon + 1) → ℝ)
    (t : Fin (nT + 1)) (j : Fin (nZ + 1)) (φ : Fin (nLat + 1))
    (l : Fin (nLon + 1)) : ℝ :=
  wf t j φ l - w_bar g wf t j φ

/-- `theta_prime = theta - theta_bar`. -/
def theta_prime (g : Grid nT nZ nLat nLon) (t : Fin (nT + 1)) (j : Fin (nZ + 1))
    (φ : Fin (nLat + 1)) (l : Fin (nLon + 1)) : ℝ :=
  theta g t j φ l - theta_bar g t j φ

/-- `heat_flux = (v_prime * theta_prime).mean('longitude')`. -/
def heat_flux (g : Grid nT nZ nLat nLon) (t : Fin (nT + 1)) (j : Fin (nZ + 1))
    (φ : Fin (nLat + 1)) : ℝ :=
  zonalMean (fun l => v_prime g t j φ l * theta_prime g t j φ l)

/-- The Earth radius constant `a = 6.37e6` from `a, cos_lat = 6.37e6, np.cos(lat)`. -/
def aEarth : ℝ := 6.37e6

/-- `cos_lat = np.cos(lat)` from the same cell. -/
def cos_lat (g : Grid nT nZ nLat nLon) (φ : Fin (nLat + 1)) : ℝ :=
  Real.cos (lat g φ)

/-- `v_star = v_bar - (rho * heat_flux / N2).differentiate('z') / rho`. -/
def v_star (g : Grid nT nZ nLat nLon) (t : Fin (nT + 1)) (j : Fin (nZ + 1))
    (φ : Fin (nLat + 1)) : ℝ :=
  v_bar g t j φ -
    npGradient (z g) (fun k => rho g k * heat_flux g t k φ / N2 g t k φ) j /
      rho g j

/-- `w_star = w_bar + (cos_lat * heat_flux / N2).differentiate('latitude') / (a * cos_lat)`. -/
def w_star (g : Grid nT nZ nLat nLon)
    (wf : Fin (nT + 1) → Fin (nZ + 1) → Fin (nLat + 1) → Fin (nLon + 1) → ℝ)
    (t : Fin (nT + 1)) (j : Fin (nZ + 1)) (φ : Fin (nLat + 1)) : ℝ :=
  w_bar g wf t j φ +
    npGradient (lat g)
      (fun ψ => cos_lat g ψ * heat_flux g t j ψ / N2 g t j ψ) φ /
      (aEarth * cos_lat g φ)

/-- `uv_bar = (u_prime * v_prime).mean('longitude')`. -/
def uv_bar (g : Grid nT nZ nLat nLon) (t : Fin (nT + 1)) (j : Fin (nZ + 1))
    (φ : Fin (nLat + 1)) : ℝ :=
  zonalMean (fun l => u_prime g t j φ l * v_prime g t j φ l)

/-- `uw_bar = (u_prime * w_prime).mean('longitude')` (converted velocity as `wf`). -/
def uw_bar (g : Grid nT nZ nLat nLon)
    (wf : Fin (nT + 1) → Fin (nZ + 1) → Fin (nLat + 1) → Fin (nLon + 1) → ℝ)
    (t : Fin (nT + 1)) (j : Fin (nZ + 1)) (φ : Fin (nLat + 1)) : ℝ :=
  zonalMean (fun l => u_prime g t j φ l * w_prime g wf t j φ l)

/-- The rotation rate `Omega = 7.292e-5`. -/
def Omega : ℝ := 7.292e-5

/-- `f = 2 * Omega * np.sin(lat)`: the Coriolis parameter. -/
def f (g : Grid nT nZ nLat nLon) (φ : Fin (nLat + 1)) : ℝ :=
  2 * Omega * Real.sin (lat g φ)

/-- `offset = (u_bar * cos_lat).differentiate('latitude') / (a * cos_lat)`. -/
def offset (g : Grid nT nZ nLat nLon) (t : Fin (nT + 1)) (j : Fin (nZ + 1))
    (φ : Fin (nLat + 1)) : ℝ :=
  npGradient (lat g) (fun ψ => u_bar g t j ψ * cos_lat g ψ) φ /
    (aEarth * cos_lat g φ)

/-- `F_lat = (u_bar.differentiate('z') * heat_flux / N2 - uv_bar) * rho * cos_lat`. -/
def F_lat (g : Grid nT nZ nLat nLon) (t : Fin (nT + 1)) (j : Fin (nZ + 1))
    (φ : Fin (nLat + 1)) : ℝ :=
  (npGradient (z g) (fun k => u_bar g t k φ) j * heat_flux g t j φ /
      N2 g t j φ - uv_bar g t j φ) * rho g j * cos_lat g φ

/-- `F_z = ((f - offset) * heat_flux / N2 - uw_bar) * rho * a * cos_lat`. -/
def F_z (g : Grid nT nZ nLat nLon)
    (wf : Fin (nT + 1) → Fin (nZ + 1) → Fin (nLat + 1) → Fin (nLon + 1) → ℝ)
    (t : Fin (nT + 1)) (j : Fin (nZ + 1)) (φ : Fin (nLat + 1)) : ℝ :=
  ((f g φ - offset g t j φ) * heat_flux g t j φ / N2 g t j φ -
      uw_bar g wf t j φ) * rho g j * aEarth * cos_lat g φ

/-- `EPFD = (F_lat.differentiate('latitude') + F_z.differentiate('z')) / (rho * a * cos_lat)`. -/
def EPFD (g : Grid nT nZ nLat nLon)
    (wf : Fin (nT + 1) → Fin (nZ + 1) → Fin (nLat + 1) → Fin (nLon + 1) → ℝ)
    (t : Fin (nT + 1)) (j : Fin (nZ + 1)) (φ : Fin (nLat + 1)) : ℝ :=
  (npGradient (lat g) (fun ψ => F_lat g t j ψ) φ +
      npGradient (z g) (fun k => F_z g wf t k φ) j) /
    (rho g j * aEarth * cos_lat g φ)

/--
The persisted dataset: the named variables of the final
`xr.Dataset({...}).mean('longitude')` call, each reduced to (time, level,
latitude).  Note that the name `'w'` is bound to `w_cartesian`, not to the
converted velocity.
-/
structure OutputDS (nT nZ nLat : ℕ) : Type where
  u : Fin (nT + 1) → Fin (nZ + 1) → Fin (nLat + 1) → ℝ
  v : Fin (nT + 1) → Fin (nZ + 1) → Fin (nLat + 1) → ℝ
  w : Fin (nT + 1) → Fin (nZ + 1) → Fin (nLat + 1) → ℝ
  T : Fin (nT + 1) → Fin (nZ + 1) → Fin (nLat + 1) → ℝ
  h : Fin (nT + 1) → Fin (nZ + 1) → Fin (nLat + 1) → ℝ
  theta : Fin (nT + 1) → Fin (nZ + 1) → Fin (nLat + 1) → ℝ
  N2 : Fin (nT + 1) → Fin (nZ + 1) → Fin (nLat + 1) → ℝ
  heat_flux : Fin (nT + 1) → Fin (nZ + 1) → Fin (nLat + 1) → ℝ
  v_star : Fin (nT + 1) → Fin (nZ + 1) → Fin (nLat + 1) → ℝ
  w_star : Fin (nT + 1) → Fin (nZ + 1) → Fin (nLat + 1) → ℝ
  EPFD : Fin (nT + 1) → Fin (nZ + 1) → Fin (nLat + 1) → ℝ

/--
The Output Assembler cell: `xr.Dataset({'u': u, ..., 'w': w_cartesian, ...,
'EPFD': EPFD}).mean('longitude')`.  4-D variables are reduced by the final
zonal mean; the already 3-D diagnostics have no longitude axis and are
unchanged by it.  `wf` is the converted velocity in scope (`Brewson.w g` in
the actual run; see `w_bar`).
-/
def outputDataset (g : Grid nT nZ nLat nLon)
    (wf : Fin (nT + 1) → Fin (nZ + 1) → Fin (nLat + 1) → Fin (nLon + 1) → ℝ) :
    OutputDS nT nZ nLat where
  u := fun t j φ => zonalMean (g.u t j φ)
  v := fun t j φ => zonalMean (g.v t j φ)
  w := fun t j φ => zonalMean (g.w_cartesian t j φ)
  T := fun t j φ => zonalMean (g.T t j φ)
  h := fun t j φ => zonalMean (h g t j φ)
  theta := fun t j φ => zonalMean (theta g t j φ)
  N2 := N2 g
  heat_flux := heat_flux g
  v_star := v_star g
  w_star := w_star g wf
  EPFD := EPFD g wf

/-- `p = p_surf * np.exp(-ds['pressure'] / H) / 100`: the output pressure
coordinate in hPa (the coordinate named `pressure` holds the `z` values). -/
def pressure_out (g : Grid nT nZ nLat nLon) (j : Fin (nZ + 1)) : ℝ :=
  p_surf g * Real.exp (-z g j / Hscale) / 100

/-- `lat = 180 * ds['latitude'] / np.pi`: the output latitude in degrees. -/
def latitude_out (g : Grid nT nZ nLat nLon) (φ : Fin (nLat + 1)) : ℝ :=
  180 * lat g φ / Real.pi

/--
Modelled from the spec: "p_surf is the pressure at the level with the
maximum raw value", i.e. the maximum of the pressure coordinate, as
required by claim C2 for comparison with the code's `p[-1]`.
-/
def p_surf_spec (g : Grid nT nZ nLat nLon) : ℝ :=
  Finset.univ.sup' Finset.univ_nonempty (p g)

/--
Modelled from the spec: `v* = v̄ − (1/ρ) · d/dz [ ρ · (v′θ′ / N²) ]`
(§4.6), with the derivative being the same finite-difference scheme as
§4.3 / the code (`npGradient`).
-/
def v_star_spec (g : Grid nT nZ nLat nLon) (t : Fin (nT + 1))
    (j : Fin (nZ + 1)) (φ : Fin (nLat + 1)) : ℝ :=
  v_bar g t j φ -
    (1 / rho g j) *
      npGradient (z g) (fun k => rho g k * (heat_flux g t k φ / N2 g t k φ)) j

/--
Modelled from the spec: `w* = w̄ + 1/(a·cosφ) · d/dφ [ cosφ · (v′θ′ / N²) ]`
(§4.6), with `a = 6.37e6` and `φ` the latitude in radians.
-/
def w_star_spec (g : Grid nT nZ nLat nLon)
    (wf : Fin (nT + 1) → Fin (nZ + 1) → Fin (nLat + 1) → Fin (nLon + 1) → ℝ)
    (t : Fin (nT + 1)) (j : Fin (nZ + 1)) (φ : Fin (nLat + 1)) : ℝ :=
  w_bar g wf t j φ +
    (1 / (aEarth * cos_lat g φ)) *
      npGradient (lat g)
        (fun ψ => cos_lat g ψ * (heat_flux g t j ψ / N2 g t j ψ)) φ

/--
Modelled from the spec: `F_lat = ρ·cosφ · ( ūz · (v′θ′/N²) − u′v′ )`
(§4.7) — note: no factor of the Earth radius `a`.
-/
def F_lat_spec (g : Grid nT nZ nLat nLon) (t : Fin (nT + 1))
    (j : Fin (nZ + 1)) (φ : Fin (nLat + 1)) : ℝ :=
  rho g j * cos_lat g φ *
    (npGradient (z g) (fun k => u_bar g t k φ) j *
        (heat_flux g t j φ / N2 g t j φ) - uv_bar g t j φ)

/--
Modelled from the spec:
`F_z = ρ·a·cosφ · ( (f − [(ū·cosφ)_φ / (a·cosφ)]) · (v′θ′/N²) − u′w′ )`
(§4.7), with `f = 2Ω·sinφ`, `Ω = 7.292e-5`.
-/
def F_z_spec (g : Grid nT nZ nLat nLon)
    (wf : Fin (nT + 1) → Fin (nZ + 1) → Fin (nLat + 1) → Fin (nLon + 1) → ℝ)
    (t : Fin (nT + 1)) (j : Fin (nZ + 1)) (φ : Fin (nLat + 1)) : ℝ :=
  rho g j * aEarth * cos_lat g φ *
    ((f g φ -
        npGradient (lat g) (fun ψ => u_bar g t j ψ * cos_lat g ψ) φ /
          (aEarth * cos_lat g φ)) *
        (heat_flux g t j φ / N2 g t j φ) - uw_bar g wf t j φ)

/--
Modelled from the spec: `EPFD = (∂F_lat/∂φ + ∂F_z/∂z) / (ρ·a·cosφ)` (§4.7),
with the `F` components as given by the spec formulas.
-/
def EPFD_spec (g : Grid nT nZ nLat nLon)
    (wf : Fin (nT + 1) → Fin (nZ + 1) → Fin (nLat + 1) → Fin (nLon + 1) → ℝ)
    (t : Fin (nT + 1)) (j : Fin (nZ + 1)) (φ : Fin (nLat + 1)) : ℝ :=
  (npGradient (lat g) (fun ψ => F_lat_spec g t j ψ) φ +
      npGradient (z g) (fun k => F_z_spec g wf t k φ) j) /
    (rho g j * aEarth * cos_lat g φ)

end

/--
The `v_star` assignment of the notebook read over the IEEE-style value type
`V` (the dtype of the actual computation is floating point): the upstream
profiles along the vertical axis are parameters, the formula is
`v_bar - (rho * heat_flux / N2).differentiate('z') / rho` verbatim.
-/
def V.v_star_of {nZ : ℕ} (zc rhoP vbarP hfP N2P : Fin (nZ + 1) → V)
    (j : Fin (nZ + 1)) : V :=
  vbarP j - npGradient zc (fun k => rhoP k * hfP k / N2P k) j / rhoP j

/--
The `w_star` assignment over `V`: profiles along the latitude axis as
parameters, formula
`w_bar + (cos_lat * heat_flux / N2).differentiate('latitude') / (a * cos_lat)`.
-/
def V.w_star_of {nLat : ℕ} (latc coslP wbarP hfP N2P : Fin (nLat + 1) → V)
    (aC : V) (φ : Fin (nLat + 1)) : V :=
  wbarP φ + npGradient latc (fun ψ => coslP ψ * hfP ψ / N2P ψ) φ /
    (aC * coslP φ)

/--
The `F_lat` assignment over `V`: vertical profiles as parameters, formula
`(u_bar.differentiate('z') * heat_flux / N2 - uv_bar) * rho * cos_lat`.
-/
def V.F_lat_of {nZ : ℕ} (zc rhoP ubarP hfP N2P uvP : Fin (nZ + 1) → V)
    (coslC : V) (j : Fin (nZ + 1)) : V :=
  (npGradient zc ubarP j * hfP j / N2P j - uvP j) * rhoP j * coslC

/--
The `F_z` assignment over `V`, pointwise (no derivative occurs in it):
`((f - offset) * heat_flux / N2 - uw_bar) * rho * a * cos_lat`.
-/
def V.F_z_of (fC offsetC hfC N2C uwC rhoC aC coslC : V) : V :=
  ((fC - offsetC) * hfC / N2C - uwC) * rhoC * aC * coslC

/-- `names = ['u', 'v', 'w', 'T', 'Z']` from the file-enumeration cell. -/
def names : List String := ["u", "v", "w", "T", "Z"]

/-- Character-list equality of a leading segment (kernel-friendly helper for
the Python `in` and `endswith` string tests). -/
def listPrefixEq : List Char → List Char → Bool
  | [], _ => true
  | _ :: _, [] => false
  | a :: as, b :: bs => a == b && listPrefixEq as bs

/-- Substring occurrence on character lists (the Python `in` operator). -/
def listContains (pat : List Char) : List Char → Bool
  | [] => listPrefixEq pat []
  | s@(_ :: rest) => listPrefixEq pat s || listContains pat rest

/-- `pat in s` for strings. -/
def strContains (pat s : String) : Bool := listContains pat.data s.data

/-- `s.endswith(suf)`. -/
def strEndsWith (s suf : String) : Bool :=
  listPrefixEq suf.data.reverse s.data.reverse

/-- `s.lower()`. -/
def strToLower (s : String) : String := ⟨s.data.map Char.toLower⟩

/--
`[x for x in fnames if f'_{name.lower()}.' in x][0]`: the first filename of
the year directory matching the variable tag.  Indexing an empty list in
Python raises `IndexError`, modelled as `Except.error` (the missing-input
abort).
-/
def pickFile (fnames : List String) (name : String) : Except String String :=
  match fnames.filter (fun x => strContains ("_" ++ strToLower name ++ ".") x) with
  | [] => .error ("missing input: " ++ name)
  | fname :: _ => .ok fname

/--
The inner loop `for name in names: fname = [...][0];
ds_fnames.append(f'{year_dir}/{fname}')`: one file per variable name, with
the `IndexError` of a missing variable propagating out as `Except.error`.
-/
def pickFiles (year_dir : String) (fnames : List String) :
    List String → Except String (List String)
  | [] => .ok []
  | name :: rest =>
      match pickFile fnames name with
      | .error e => .error e
      | .ok fname =>
          match pickFiles year_dir fnames rest with
          | .error e => .error e
          | .ok more => .ok ((year_dir ++ "/" ++ fname) :: more)

/--
The file-enumeration loop: for each year directory (given as the pair of
its path and its listing, in `sorted(os.listdir(era_dir))` order), keep the
`.nc` entries and pick one file per variable in `names`, accumulating
`f'{year_dir}/{fname}'`.  Any missing (variable, year) pair aborts the
whole enumeration.
-/
def ds_fnames : List (String × List String) → Except String (List String)
  | [] => .ok []
  | (year_dir, listing) :: rest =>
      match pickFiles year_dir
          (listing.filter (fun x => strEndsWith x "nc")) names with
      | .error e => .error e
      | .ok picked =>
          match ds_fnames rest with
          | .error e => .error e
          | .ok others => .ok (picked ++ others)

/--
The pipeline as seen from the Input Adapter: every computation and the
final `to_netcdf` write happen strictly after the file enumeration
(`xr.open_mfdataset(ds_fnames, ...)` onward), so an enumeration error
reaches the caller before `compute` runs and before any output exists.
-/
def runPipeline {β : Type} (dirs : List (String × List String))
    (compute : List String → β) : Except String β :=
  (ds_fnames dirs).map compute

/--
A 1-D xarray `DataArray` as far as binary arithmetic alignment is
concerned: a list of coordinate values and the data value at each
coordinate.
-/
structure XField : Type where
  coords : List ℚ
  val : ℚ → ℚ

/--
xarray binary multiplication (as in `v_prime * theta_prime`,
`u_prime * v_prime`, `u_prime * w_prime`): operands are automatically
aligned with the default `arithmetic_join='inner'` — the result's
coordinates are the intersection of the operands' coordinates, values are
multiplied at matching coordinates, and no check, error, broadcast or
interpolation happens for coordinates present in only one operand.
-/
def xmul (F G : XField) : XField where
  coords := F.coords.filter (fun c => decide (c ∈ G.coords))
  val := fun c => F.val c * G.val c

noncomputable section

/-- A 2-level grid whose raw vertical coordinate is stored in DESCENDING
pressure order (the counterexample grid for claim C2). -/
def gDesc : Grid 0 1 0 0 where
  level := ![1000, 500]
  latitude_deg := ![45]
  u := fun _ _ _ _ => 0
  v := fun _ _ _ _ => 0
  w_cartesian := fun _ _ _ _ => 0
  T := fun _ _ _ _ => 0
  Phi := fun _ _ _ _ => 0

/-- A 2-level grid stored in ascending pressure order (witness grid for the
amended claim C2). -/
def gAsc : Grid 0 1 0 0 where
  level := ![500, 1000]
  latitude_deg := ![45]
  u := fun _ _ _ _ => 0
  v := fun _ _ _ _ => 0
  w_cartesian := fun _ _ _ _ => 0
  T := fun _ _ _ _ => 0
  Phi := fun _ _ _ _ => 0

/-- A minimal grid with all physical fields zero (witness grid for claim
C7: the eddy heat flux vanishes identically). -/
def gZero : Grid 0 0 0 0 where
  level := ![1000]
  latitude_deg := ![45]
  u := fun _ _ _ _ => 0
  v := fun _ _ _ _ => 0
  w_cartesian := fun _ _ _ _ => 0
  T := fun _ _ _ _ => 0
  Phi := fun _ _ _ _ => 0

/-- A minimal grid with a positive pressure level (witness grid for the
coordinate round-trip claim C9). -/
def gRT : Grid 0 0 0 0 where
  level := ![1000]
  latitude_deg := ![45]
  u := fun _ _ _ _ => 0
  v := fun _ _ _ _ => 0
  w_cartesian := fun _ _ _ _ => 0
  T := fun _ _ _ _ => 0
  Phi := fun _ _ _ _ => 0

end

/-- Concrete mismatched 1-D fields (disjoint coordinate lists) for claim C5. -/
def exF1 : XField where
  coords := [0, 2]
  val := fun _ => 1

/-- Second concrete field with coordinates disjoint from `exF1`. -/
def exF2 : XField where
  coords := [1, 3]
  val := fun _ => 1

/-- A year directory listing with the geopotential (`Z`) file absent
(witness input for claim C4). -/
def dirsMissing : List (String × List String) :=
  [("1979", ["e5_u.nc", "e5_v.nc", "e5_w.nc", "e5_t.nc"])]

/-- A complete year directory listing (witness input for the count part of
claim C4). -/
def dirsComplete : List (String × List String) :=
  [("1979", ["e5_u.nc", "e5_v.nc", "e5_w.nc", "e5_t.nc", "e5_z.nc"])]

theorem npGradient_congr {α : Type} [Add α] [Sub α] [Mul α] [Div α] [Neg α]
    {n : ℕ} (x F G : Fin (n + 1) → α) (hFG : ∀ k, F k = G k)
    (i : Fin (n + 1)) : npGradient x F i = npGradient x G i := by
  rw [funext hFG]

theorem npGradient_zero {n : ℕ} (x : Fin (n + 1) → ℝ) (i : Fin (n + 1)) :
    npGradient x (fun _ => (0 : ℝ)) i = 0 := by
  unfold npGradient
  split_ifs <;> simp

theorem zonalMean_sub_mean {n : ℕ} (F : Fin (n + 1) → ℝ) :
    zonalMean (fun l => F l - zonalMean F) = 0 := by
  have hn : ((n : ℝ) + 1) ≠ 0 := by positivity
  simp only [zonalMean, Finset.sum_sub_distrib, Finset.sum_const,
    Finset.card_univ, Fintype.card_fin, nsmul_eq_mul]
  push_cast
  rw [mul_div_cancel₀ _ hn, sub_self, zero_div]

theorem zonalMean_zero_fn {n : ℕ} :
    zonalMean (fun _ : Fin (n + 1) => (0 : ℝ)) = 0 := by
  simp [zonalMean]

theorem V.fin_add (a b : ℚ) : V.fin a + V.fin b = V.fin (a + b) := rfl

theorem V.fin_sub (a b : ℚ) : V.fin a - V.fin b = V.fin (a - b) := by
  show V.fin a + V.fin (-b) = V.fin (a - b)
  rw [V.fin_add, sub_eq_add_neg]

theorem V.fin_mul (a b : ℚ) : V.fin a * V.fin b = V.fin (a * b) := rfl

theorem V.fin_div (a b : ℚ) (hb : b ≠ 0) :
    V.fin a / V.fin b = V.fin (a / b) := by
  show V.div (V.fin a) (V.fin b) = V.fin (a / b)
  simp [V.div, hb]

theorem V.fin_neg (a : ℚ) : -V.fin a = V.fin (-a) := rfl

theorem V.neg_nf (x : V) (hx : x.isFinite = false) : (-x).isFinite = false := by
  cases x <;> simp_all [Neg.neg, V.neg, V.isFinite]

theorem V.add_nf_left (x y : V) (hx : x.isFinite = false) :
    (x + y).isFinite = false := by
  cases x <;> cases y <;> simp_all [HAdd.hAdd, Add.add, V.add, V.isFinite]

theorem V.add_nf_right (x y : V) (hy : y.isFinite = false) :
    (x + y).isFinite = false := by
  cases x <;> cases y <;> simp_all [HAdd.hAdd, Add.add, V.add, V.isFinite]

theorem V.sub_nf_left (x y : V) (hx : x.isFinite = false) :
    (x - y).isFinite = false :=
  V.add_nf_left x y.neg hx

theorem V.sub_nf_right (x y : V) (hy : y.isFinite = false) :
    (x - y).isFinite = false :=
  V.add_nf_right x y.neg (by cases y <;> simp_all [V.neg, V.isFinite])

theorem V.mul_nf_left (x y : V) (hx : x.isFinite = false) :
    (x * y).isFinite = false := by
  cases x <;> cases y <;>
    simp_all [HMul.hMul, Mul.mul, V.mul, V.isFinite] <;> split_ifs <;> rfl

theorem V.mul_nf_right (x y : V) (hy : y.isFinite = false) :
    (x * y).isFinite = false := by
  cases x <;> cases y <;>
    simp_all [HMul.hMul, Mul.mul, V.mul, V.isFinite] <;> split_ifs <;> rfl

theorem V.div_nf_left (x y : V) (hx : x.isFinite = false) :
    (x / y).isFinite = false := by
  cases x <;> cases y <;>
    simp_all [HDiv.hDiv, Div.div, V.div, V.isFinite] <;> split_ifs <;> rfl

theorem V.div_zero_nf (x : V) : (x / V.fin 0).isFinite = false := by
  cases x <;> simp_all [HDiv.hDiv, Div.div, V.div, V.isFinite] <;>
    split_ifs <;> simp_all

theorem npGradient_nf {n : ℕ} (x F : Fin (n + 1) → V) (i : Fin (n + 1))
    (hi : (F i).isFinite = false) : (npGradient x F i).isFinite = false := by
  unfold npGradient
  split_ifs
  · exact V.div_nf_left _ _ (V.sub_nf_right _ _ hi)
  · exact V.div_nf_left _ _ (V.sub_nf_left _ _ hi)
  · exact V.add_nf_left _ _ (V.add_nf_right _ _ (V.mul_nf_right _ _ hi))

/--
C1: at every (time, level, latitude) the Residual-Circulation Module's
outputs equal the spec formulas `v* = v̄ − (1/ρ)·d/dz[ρ·(v′θ′/N²)]` and
`w* = w̄ + 1/(a·cosφ)·d/dφ[cosφ·(v′θ′/N²)]`, with `a = 6.37×10⁶ m`, `φ` the
latitude in radians, `ρ = exp(−z/H)` (the definition of `rho`), and `N²`
the vertical derivative of the zonal-mean potential temperature (the
definition of `N2`); `w̄` is the zonal mean of the converted velocity
`w g`, as in the notebook.
-/
theorem residual_circulation_matches_spec {nT nZ nLat nLon : ℕ}
    (g : Grid nT nZ nLat nLon) (t : Fin (nT + 1)) (j : Fin (nZ + 1))
    (φ : Fin (nLat + 1)) :
    v_star g t j φ = v_star_spec g t j φ ∧
    w_star g (w g) t j φ = w_star_spec g (w g) t j φ ∧
    aEarth = 6370000 := by
  refine ⟨?_, ?_, by norm_num [aEarth]⟩
  · simp only [v_star, v_star_spec]
    rw [npGradient_congr (z g) _
      (fun k => rho g k * (heat_flux g t k φ / N2 g t k φ)) (fun k => by ring)]
    ring
  · simp only [w_star, w_star_spec]
    rw [npGradient_congr (lat g) _
      (fun ψ => cos_lat g ψ * (heat_flux g t j ψ / N2 g t j ψ)) (fun ψ => by ring)]
    ring

theorem F_lat_eq_spec {nT nZ nLat nLon : ℕ} (g : Grid nT nZ nLat nLon)
    (t : Fin (nT + 1)) (j : Fin (nZ + 1)) (φ : Fin (nLat + 1)) :
    F_lat g t j φ = F_lat_spec g t j φ := by
  simp only [F_lat, F_lat_spec]
  ring

theorem F_z_eq_spec {nT nZ nLat nLon : ℕ} (g : Grid nT nZ nLat nLon)
    (t : Fin (nT + 1)) (j : Fin (nZ + 1)) (φ : Fin (nLat + 1)) :
    F_z g (w g) t j φ = F_z_spec g (w g) t j φ := by
  simp only [F_z, F_z_spec, offset]
  ring

/--
C3: the Wave-Flux Module computes
`F_lat = ρ·cosφ·(ūz·(v′θ′/N²) − u′v′)` — with no factor of the Earth's
radius in `F_lat` (the documented deviation from the reference paper) —,
`F_z = ρ·a·cosφ·((f − (ū·cosφ)_φ/(a·cosφ))·(v′θ′/N²) − u′w′)` with
`f = 2Ω·sinφ`, and `EPFD = (∂F_lat/∂φ + ∂F_z/∂z)/(ρ·a·cosφ)`, with
`Ω = 7.292×10⁻⁵` and `a = 6.37×10⁶`.
-/
theorem wave_flux_matches_spec {nT nZ nLat nLon : ℕ}
    (g : Grid nT nZ nLat nLon) (t : Fin (nT + 1)) (j : Fin (nZ + 1))
    (φ : Fin (nLat + 1)) :
    F_lat g t j φ = F_lat_spec g t j φ ∧
    F_z g (w g) t j φ = F_z_spec g (w g) t j φ ∧
    EPFD g (w g) t j φ = EPFD_spec g (w g) t j φ ∧
    (∀ ψ, f g ψ = 2 * Omega * Real.sin (lat g ψ)) ∧
    Omega = 7292 / 100000000 ∧ aEarth = 6370000 := by
  refine ⟨F_lat_eq_spec g t j φ, F_z_eq_spec g t j φ, ?_, fun ψ => rfl,
    by norm_num [Omega], by norm_num [aEarth]⟩
  simp only [EPFD, EPFD_spec]
  rw [npGradient_congr (lat g) _ (fun ψ => F_lat_spec g t j ψ)
    (fun ψ => F_lat_eq_spec g t j ψ)]
  rw [npGradient_congr (z g) _ (fun k => F_z_spec g (w g) t k φ)
    (fun k => F_z_eq_spec g t k φ)]

/--
C7: if the eddy heat flux `v′θ′` vanishes at every point, then `v*` equals
`v̄` exactly and `w*` equals `w̄` exactly — the eddy-correction terms vanish
identically.
-/
theorem zero_heat_flux_residual_reduces {nT nZ nLat nLon : ℕ}
    (g : Grid nT nZ nLat nLon)
    (hvt : ∀ t j φ l, v_prime g t j φ l * theta_prime g t j φ l = 0) :
    ∀ t j φ, v_star g t j φ = v_bar g t j φ ∧
      w_star g (w g) t j φ = w_bar g (w g) t j φ := by
  have hhf : ∀ t j φ, heat_flux g t j φ = 0 := by
    intro t j φ
    simp only [heat_flux]
    rw [show (fun l => v_prime g t j φ l * theta_prime g t j φ l) =
      fun _ => (0 : ℝ) from funext fun l => hvt t j φ l]
    exact zonalMean_zero_fn
  intro t j φ
  constructor
  · simp only [v_star]
    rw [npGradient_congr (z g) _ (fun _ => (0 : ℝ))
      (fun k => by rw [hhf]; ring)]
    rw [npGradient_zero]
    simp
  · simp only [w_star]
    rw [npGradient_congr (lat g) _ (fun _ => (0 : ℝ))
      (fun ψ => by rw [hhf]; ring)]
    rw [npGradient_zero]
    simp

/-- Witness for C7 at the concrete all-zero grid `gZero`. -/
theorem zero_heat_flux_residual_reduces_witness :
    v_star gZero 0 0 0 = v_bar gZero 0 0 0 ∧
    w_star gZero (w gZero) 0 0 0 = w_bar gZero (w gZero) 0 0 0 := by
  have hvt : ∀ t j φ l,
      v_prime gZero t j φ l * theta_prime gZero t j φ l = 0 := by
    intro t j φ l
    have hv : v_prime gZero t j φ l = 0 := by
      simp [v_prime, v_bar, gZero, zonalMean]
    rw [hv, zero_mul]
  exact zero_heat_flux_residual_reduces gZero hvt 0 0 0

/--
C8: the zonal mean of the eddy part of each decomposed field is exactly
zero at every (time, level, latitude): `mean_lon(F − mean_lon(F)) = 0` for
`u′`, `v′`, `w′` and `θ′` (and for an arbitrary Field with a longitude
axis).
-/
theorem eddy_zonal_mean_zero {nT nZ nLat nLon : ℕ}
    (g : Grid nT nZ nLat nLon) (t : Fin (nT + 1)) (j : Fin (nZ + 1))
    (φ : Fin (nLat + 1)) :
    zonalMean (fun l => u_prime g t j φ l) = 0 ∧
    zonalMean (fun l => v_prime g t j φ l) = 0 ∧
    zonalMean (fun l => w_prime g (w g) t j φ l) = 0 ∧
    zonalMean (fun l => theta_prime g t j φ l) = 0 ∧
    (∀ F : Fin (nLon + 1) → ℝ, zonalMean (fun l => F l - zonalMean F) = 0) :=
  ⟨zonalMean_sub_mean (g.u t j φ), zonalMean_sub_mean (g.v t j φ),
    zonalMean_sub_mean (w g t j φ), zonalMean_sub_mean (theta g t j φ),
    fun F => zonalMean_sub_mean F⟩

/--
C10: the variable `'w'` of the persisted dataset is the zonal mean of the
native vertical velocity `w_cartesian` as read from the input files, and
the converted (log-pressure) velocity influences the output only through
`w_star` and through the `u′w′` covariance feeding `F_z`/`EPFD`: every
other output variable is unchanged when the converted velocity field is
replaced by any other field.
-/
theorem output_w_is_native_zonal_mean {nT nZ nLat nLon : ℕ}
    (g : Grid nT nZ nLat nLon) :
    ((outputDataset g (w g)).w = fun t j φ => zonalMean (g.w_cartesian t j φ))
    ∧ (∀ wf wf' :
        Fin (nT + 1) → Fin (nZ + 1) → Fin (nLat + 1) → Fin (nLon + 1) → ℝ,
        (outputDataset g wf).u = (outputDataset g wf').u ∧
        (outputDataset g wf).v = (outputDataset g wf').v ∧
        (outputDataset g wf).w = (outputDataset g wf').w ∧
        (outputDataset g wf).T = (outputDataset g wf').T ∧
        (outputDataset g wf).h = (outputDataset g wf').h ∧
        (outputDataset g wf).theta = (outputDataset g wf').theta ∧
        (outputDataset g wf).N2 = (outputDataset g wf').N2 ∧
        (outputDataset g wf).heat_flux = (outputDataset g wf').heat_flux ∧
        (outputDataset g wf).v_star = (outputDataset g wf').v_star) :=
  ⟨rfl, fun _ _ => ⟨rfl, rfl, rfl, rfl, rfl, rfl, rfl, rfl, rfl⟩⟩

/--
C9: the Output Assembler's inverse transforms undo the Coordinate
Normalizer's forward transforms: `p_surf·exp(−z/H)/100` recovers the raw
pressure values (in hPa) from `z = −H·ln(p/p_surf)`, and
`180·lat/π` recovers the raw latitude in degrees from `π·lat/180` — each
linear latitude scale is applied exactly once, never compounded.
-/
theorem coordinate_round_trip {nT nZ nLat nLon : ℕ}
    (g : Grid nT nZ nLat nLon) (j : Fin (nZ + 1)) (φ : Fin (nLat + 1))
    (hp : 0 < g.level j) (hps : 0 < g.level (Fin.last nZ)) :
    pressure_out g j = g.level j ∧ latitude_out g φ = g.latitude_deg φ := by
  constructor
  · simp only [pressure_out, z, p_surf, p, Hscale]
    rw [show -(-6800 * Real.log (100 * g.level j /
        (100 * g.level (Fin.last nZ)))) / 6800 =
      Real.log (100 * g.level j / (100 * g.level (Fin.last nZ))) by ring]
    rw [Real.exp_log (by positivity)]
    field_simp
  · simp only [latitude_out, lat]
    field_simp [Real.pi_ne_zero]

/-- Witness for C9 at the concrete grid `gRT` (level 1000 hPa, latitude 45°). -/
theorem coordinate_round_trip_witness :
    pressure_out gRT 0 = 1000 ∧ latitude_out gRT 0 = 45 := by
  have hp : (0 : ℝ) < gRT.level 0 := by norm_num [gRT]
  have hrt := coordinate_round_trip gRT 0 0 hp hp
  refine ⟨?_, ?_⟩
  · rw [hrt.1]; norm_num [gRT]
  · rw [hrt.2]; norm_num [gRT]

/--
Counterexample to C2: on a grid whose raw vertical coordinate is stored in
descending pressure order, `p_surf = p[-1]` is NOT the pressure at the
level with the maximum raw value — the selection is keyed off the fixed
last array position, not off the maximum.
-/
theorem p_surf_not_max_on_descending : p_surf gDesc ≠ p_surf_spec gDesc := by
  have h1 : p_surf gDesc = 50000 := by
    norm_num [p_surf, p, gDesc, Fin.last]
  have h3 : p gDesc 0 = 100000 := by
    norm_num [p, gDesc]
  intro hEq
  have h2 : p gDesc 0 ≤ p_surf_spec gDesc :=
    Finset.le_sup' (p gDesc) (Finset.mem_univ 0)
  rw [← hEq, h1, h3] at h2
  norm_num at h2

/--
C2 amended: `p_surf = p[-1]` equals the pressure at the maximum-pressure
level exactly when the raw vertical levels are stored in ascending
pressure order (the storage convention of the actual dataset); the code
does not track the near-surface level under other orderings.
-/
theorem p_surf_is_max_of_ascending {nT nZ nLat nLon : ℕ}
    (g : Grid nT nZ nLat nLon)
    (hmono : ∀ i j : Fin (nZ + 1), i ≤ j → g.level i ≤ g.level j) :
    p_surf g = p_surf_spec g := by
  apply le_antisymm
  · exact Finset.le_sup' (p g) (Finset.mem_univ _)
  · refine Finset.sup'_le _ _ fun j _ => ?_
    simp only [p, p_surf]
    exact mul_le_mul_of_nonneg_left (hmono j (Fin.last nZ) (Fin.le_last j))
      (by norm_num)

/-- Witness for the amended C2 at the ascending grid `gAsc`. -/
theorem p_surf_is_max_of_ascending_witness :
    p_surf gAsc = p_surf_spec gAsc := by
  have hmono : ∀ i j : Fin 2, i ≤ j → gAsc.level i ≤ gAsc.level j := by
    intro i j hij
    fin_cases i <;> fin_cases j <;> norm_num [gAsc] at hij ⊢
  exact p_surf_is_max_of_ascending gAsc hmono

/--
Counterexample to C6 as stated: at a point where `N²` is negative (here
`N² = −1`) the divisions by `N²` are ordinary finite divisions — no NaN or
±∞ is produced or propagated.  Concretely, `F_z` evaluates to the finite
value `−1`, and `v_star` on a 2-level column with `N² = −1` everywhere
evaluates to the finite value `1`.
-/
theorem negative_N2_finite_output :
    (V.F_z_of (V.fin 1) (V.fin 0) (V.fin 1) (V.fin (-1)) (V.fin 0)
        (V.fin 1) (V.fin 1) (V.fin 1)).isFinite = true ∧
    V.F_z_of (V.fin 1) (V.fin 0) (V.fin 1) (V.fin (-1)) (V.fin 0)
        (V.fin 1) (V.fin 1) (V.fin 1) = V.fin (-1) ∧
    (V.v_star_of ![V.fin 0, V.fin 1] ![V.fin 1, V.fin 1]
        ![V.fin 1, V.fin 1] ![V.fin 1, V.fin 1]
        ![V.fin (-1), V.fin (-1)] 0).isFinite = true := by
  refine ⟨?_, ?_, ?_⟩
  · norm_num [V.F_z_of, V.fin_add, V.fin_sub, V.fin_mul, V.fin_div, V.isFinite]
  · norm_num [V.F_z_of, V.fin_add, V.fin_sub, V.fin_mul, V.fin_div]
  · simp only [V.v_star_of, npGradient]
    norm_num [V.fin_add, V.fin_sub, V.fin_mul, V.fin_div, V.isFinite]

/--
C6 amended: wherever `N²` is exactly zero, the divisions by `N²` in `v*`,
`w*`, `F_lat` and `F_z` produce a NaN or ±∞ that propagates unclamped into
the output value at that point (the four computations are total functions
of the inputs — the pipeline does not crash there); for negative `N²` the
division is finite (see the counterexample).
-/
theorem zero_N2_propagates_nonfinite {nZ nLat : ℕ}
    (zc rhoP vbarP hfP N2P ubarP uvP : Fin (nZ + 1) → V)
    (latc coslP wbarP hfL N2L : Fin (nLat + 1) → V)
    (fC offsetC hfC N2C uwC rhoC aC coslC : V)
    (j : Fin (nZ + 1)) (φ : Fin (nLat + 1))
    (hz : N2P j = V.fin 0) (hlat : N2L φ = V.fin 0) (hpt : N2C = V.fin 0) :
    (V.v_star_of zc rhoP vbarP hfP N2P j).isFinite = false ∧
    (V.w_star_of latc coslP wbarP hfL N2L aC φ).isFinite = false ∧
    (V.F_lat_of zc rhoP ubarP hfP N2P uvP coslC j).isFinite = false ∧
    (V.F_z_of fC offsetC hfC N2C uwC rhoC aC coslC).isFinite = false := by
  refine ⟨?_, ?_, ?_, ?_⟩
  · unfold V.v_star_of
    refine V.sub_nf_right _ _ (V.div_nf_left _ _ ?_)
    refine npGradient_nf _ _ _ ?_
    rw [hz]
    exact V.div_zero_nf _
  · unfold V.w_star_of
    refine V.add_nf_right _ _ (V.div_nf_left _ _ ?_)
    refine npGradient_nf _ _ _ ?_
    rw [hlat]
    exact V.div_zero_nf _
  · unfold V.F_lat_of
    refine V.mul_nf_left _ _ (V.mul_nf_left _ _ (V.sub_nf_left _ _ ?_))
    rw [hz]
    exact V.div_zero_nf _
  · unfold V.F_z_of
    refine V.mul_nf_left _ _ (V.mul_nf_left _ _ (V.mul_nf_left _ _
      (V.sub_nf_left _ _ ?_)))
    rw [hpt]
    exact V.div_zero_nf _

/-- Witness for the amended C6 on concrete 2-point profiles with `N² = 0`
at the evaluated index. -/
theorem zero_N2_propagates_nonfinite_witness :
    (V.v_star_of ![V.fin 0, V.fin 1] ![V.fin 1, V.fin 1]
        ![V.fin 1, V.fin 1] ![V.fin 1, V.fin 1]
        ![V.fin 0, V.fin 1] 0).isFinite = false ∧
    (V.F_z_of (V.fin 1) (V.fin 0) (V.fin 1) (V.fin 0) (V.fin 0)
        (V.fin 1) (V.fin 1) (V.fin 1)).isFinite = false := by
  have hmain := zero_N2_propagates_nonfinite
    ![V.fin 0, V.fin 1] ![V.fin 1, V.fin 1] ![V.fin 1, V.fin 1]
    ![V.fin 1, V.fin 1] ![V.fin 0, V.fin 1] ![V.fin 1, V.fin 1]
    ![V.fin 1, V.fin 1]
    ![V.fin 0, V.fin 1] ![V.fin 1, V.fin 1] ![V.fin 1, V.fin 1]
    ![V.fin 1, V.fin 1] ![V.fin 0, V.fin 1]
    (V.fin 1) (V.fin 0) (V.fin 1) (V.fin 0) (V.fin 0) (V.fin 1) (V.fin 1)
    (V.fin 1) 0 0 (by decide) (by decide) (by decide)
  exact ⟨hmain.1, hmain.2.2.2⟩

/--
Counterexample to C5: multiplying two fields with entirely disjoint
coordinate grids proceeds without any check or failure — xarray's automatic
inner-join alignment silently produces a field with an empty coordinate
set (and still evaluates the pointwise product function).  No
coordinate-alignment assertion exists in the eddy-covariance cells.
-/
theorem eddy_mul_no_alignment_check :
    (xmul exF1 exF2).coords = [] ∧ (xmul exF1 exF2).val 0 = 1 := by
  constructor
  · decide
  · show exF1.val 0 * exF2.val 0 = 1
    norm_num [exF1, exF2]

/--
C5 amended: the eddy-covariance multiplications rely on xarray's automatic
alignment (`arithmetic_join='inner'`): the product's coordinates are
exactly those present in BOTH operands (mismatched coordinates are
silently dropped — never broadcast and never interpolated), and the value
at every surviving coordinate is the exact pointwise product of the two
operand values at that same coordinate; no failure occurs on mismatch.
-/
theorem eddy_mul_inner_join (F G : XField) :
    ((xmul F G).coords ⊆ F.coords ∧ (xmul F G).coords ⊆ G.coords) ∧
    (∀ c, c ∈ F.coords → c ∈ G.coords → c ∈ (xmul F G).coords) ∧
    (∀ c, c ∈ (xmul F G).coords → (xmul F G).val c = F.val c * G.val c) := by
  refine ⟨⟨(List.filter_sublist _).subset, fun c hc => ?_⟩, fun c hcF hcG => ?_,
    fun c _ => rfl⟩
  · have := List.of_mem_filter hc
    simpa using this
  · exact List.mem_filter.mpr ⟨hcF, by simpa using hcG⟩

/-- Witness for the amended C5 on a concrete aligned pair. -/
theorem eddy_mul_inner_join_witness :
    (0 : ℚ) ∈ (xmul exF1 exF1).coords ∧
    (xmul exF1 exF1).val 0 = exF1.val 0 * exF1.val 0 :=
  ⟨(eddy_mul_inner_join exF1 exF1).2.1 0 (by decide) (by decide),
    (eddy_mul_inner_join exF1 exF1).2.2 0
      ((eddy_mul_inner_join exF1 exF1).2.1 0 (by decide) (by decide))⟩

theorem pickFiles_ok_length (year_dir : String) (fnames : List String)
    (l ys : List String) (hok : pickFiles year_dir fnames l = .ok ys) :
    ys.length = l.length := by
  induction l generalizing ys with
  | nil =>
    unfold pickFiles at hok
    cases hok
    rfl
  | cons name rest ih =>
    unfold pickFiles at hok
    cases hpf : pickFile fnames name with
    | error e => rw [hpf] at hok; cases hok
    | ok fname =>
      rw [hpf] at hok
      cases hrec : pickFiles year_dir fnames rest with
      | error e => rw [hrec] at hok; cases hok
      | ok more =>
        rw [hrec] at hok
        cases hok
        simp [ih more hrec]

theorem pickFiles_error_of_missing (year_dir : String) (fnames : List String)
    (l : List String) (name : String) (hmem : name ∈ l)
    (hfilt : fnames.filter
      (fun x => strContains ("_" ++ strToLower name ++ ".") x) = []) :
    ∃ msg, pickFiles year_dir fnames l = .error msg := by
  induction l with
  | nil => cases hmem
  | cons b rest ih =>
    unfold pickFiles
    rcases List.mem_cons.mp hmem with rfl | hmem2
    · rw [show pickFile fnames name = .error ("missing input: " ++ name) by
        unfold pickFile; rw [hfilt]]
      exact ⟨_, rfl⟩
    · cases hpf : pickFile fnames b with
      | error e => exact ⟨e, rfl⟩
      | ok fname =>
        obtain ⟨m, hm⟩ := ih hmem2
        rw [hm]
        exact ⟨m, rfl⟩

/--
C4: the Input Adapter fails fast.  First conjunct: if for some year some
variable in `names` has no matching `.nc` file, then the enumeration
returns a missing-input error, and the whole pipeline — every computation
of which runs strictly after the enumeration — returns that error without
ever invoking the computation, so no output is produced.  Second conjunct:
whenever the enumeration succeeds, the number of files found is EXACTLY
`len(years) * len(names)`, so the found-versus-expected comparison printed
by the notebook can never disagree on a successful run (the integrity
check cannot silently pass a mismatch: a missing file already aborted).
-/
theorem input_adapter_fail_fast :
    (∀ dirs : List (String × List String),
      (∃ pr ∈ dirs, ∃ name ∈ names,
        ((pr.2.filter (fun x => strEndsWith x "nc")).filter
          (fun x => strContains ("_" ++ strToLower name ++ ".") x)) = []) →
      ∃ msg, ds_fnames dirs = .error msg ∧
        ∀ (β : Type) (compute : List String → β),
          runPipeline dirs compute = .error msg)
    ∧ (∀ (dirs : List (String × List String)) (l : List String),
        ds_fnames dirs = .ok l → l.length = dirs.length * names.length) := by
  constructor
  · intro dirs hmiss
    suffices hds : ∃ msg, ds_fnames dirs = .error msg by
      obtain ⟨msg, hm⟩ := hds
      exact ⟨msg, hm, fun β compute => by
        unfold runPipeline
        rw [hm]
        rfl⟩
    induction dirs with
    | nil => obtain ⟨pr, hpr, -⟩ := hmiss; cases hpr
    | cons hd rest ih =>
      obtain ⟨pr, hpr, name, hname, hfilt⟩ := hmiss
      obtain ⟨year_dir, listing⟩ := hd
      rcases List.mem_cons.mp hpr with rfl | hpr2
      · obtain ⟨m, hm⟩ := pickFiles_error_of_missing year_dir
          (listing.filter (fun x => strEndsWith x "nc")) names name hname hfilt
        unfold ds_fnames
        rw [hm]
        exact ⟨m, rfl⟩
      · unfold ds_fnames
        cases hpk : pickFiles year_dir
            (listing.filter (fun x => strEndsWith x "nc")) names with
        | error e => exact ⟨e, rfl⟩
        | ok picked =>
          obtain ⟨m, hm⟩ := ih ⟨pr, hpr2, name, hname, hfilt⟩
          rw [hm]
          exact ⟨m, rfl⟩
  · intro dirs
    induction dirs with
    | nil =>
      intro l hok
      unfold ds_fnames at hok
      cases hok
      rfl
    | cons hd rest ih =>
      intro l hok
      obtain ⟨year_dir, listing⟩ := hd
      unfold ds_fnames at hok
      cases hpk : pickFiles year_dir
          (listing.filter (fun x => strEndsWith x "nc")) names with
      | error e => rw [hpk] at hok; cases hok
      | ok picked =>
        rw [hpk] at hok
        cases hrec : ds_fnames rest with
        | error e => rw [hrec] at hok; cases hok
        | ok others =>
          rw [hrec] at hok
          cases hok
          rw [List.length_append,
            pickFiles_ok_length year_dir _ names picked hpk, ih others hrec,
            List.length_cons]
          ring

/-- Witness for C4: the concrete year directory with the geopotential file
absent aborts with an error and no computation; the complete directory
yields exactly `1 * len(names)` files. -/
theorem input_adapter_fail_fast_witness :
    (∃ pr ∈ dirsMissing, ∃ name ∈ names,
      ((pr.2.filter (fun x => strEndsWith x "nc")).filter
        (fun x => strContains ("_" ++ strToLower name ++ ".") x)) = []) ∧
    (∃ msg, runPipeline dirsMissing (fun fs => fs.length) = .error msg) ∧
    (["1979/e5_u.nc", "1979/e5_v.nc", "1979/e5_w.nc", "1979/e5_t.nc",
      "1979/e5_z.nc"].length = dirsComplete.length * names.length) := by
  have hmiss : ∃ pr ∈ dirsMissing, ∃ name ∈ names,
      ((pr.2.filter (fun x => strEndsWith x "nc")).filter
        (fun x => strContains ("_" ++ strToLower name ++ ".") x)) = [] := by
    decide
  refine ⟨hmiss, ?_, input_adapter_fail_fast.2 dirsComplete _ rfl⟩
  obtain ⟨msg, -, hall⟩ := input_adapter_fail_fast.1 dirsMissing hmiss
  exact ⟨msg, hall ℕ (fun fs => fs.length)⟩

end Brewson
